import Mathlib

/-
  Shallow embedding of the insulin-backend reminder engine.

  Sources embedded here:
  - src/jobs/comprehensiveReminderJob.js : the 30-minute reminder tick
    (reactivation handling, new-user reminders, active-user reminders,
    admin escalation) and the dose-event hook updatePatientReminderData.
  - src/jobs/subscriptionJob.js : the daily subscription-expiry tick.
  - src/routes/patients.js (doseController.logDose) : dose logging with
    the 20-hour basal restriction.
  - src/models/Patient.js, src/models/Dose.js : the persisted fields.

  Timestamps are modelled as natural numbers of milliseconds since the
  epoch (JS Date arithmetic with fixed-offset hours/minutes).  Absent
  Mongo fields are modelled as Option.none.  The Mongo store is modelled
  by explicit state passing: each per-patient loop body is a pure
  function from the patient document read at scan time (guards read that
  document, as in the JS code, where findByIdAndUpdate does not mutate
  the in-memory document) to the accumulated written state plus the list
  of notification sends attempted.  Outbound SMS/email calls are
  modelled by their outcome: success, failure (resolved with
  success=false) or thrown (the awaited call threw and the enclosing
  try/catch skipped the rest of the block).
-/

namespace InsulinBackend

def minuteMs : Nat := 60 * 1000

def hourMs : Nat := 60 * minuteMs

def dayMs : Nat := 24 * hourMs

/-- Coarse reminder phase, field smsReminderCycle of PatientSchema. -/
inductive Cycle
  | new_user
  | active_user
  | inactive_user
  | admin_notified
deriving DecidableEq

/-- Dose type enum of DoseSchema. -/
inductive DoseType
  | Basal
  | Bolus
deriving DecidableEq

/-- One dose row of a single patient (only type and timestamp matter). -/
structure Dose where
  type : DoseType
  timestamp : Nat
deriving DecidableEq

/-- The reminder-relevant fields of PatientSchema (src/models/Patient.js). -/
structure Patient where
  phone : Option String
  role : String
  active : Bool
  verified : Bool
  isActive : Option Bool
  previousActiveState : Option Bool
  lastActivationDate : Option Nat
  welcomeSmsSent : Bool
  welcomeSmsSentAt : Option Nat
  hasLoggedFirstDose : Bool
  smsReminderCycle : Cycle
  reminderAttempts : Nat
  lastReminderSent : Option Nat
  lastDoseTime : Option Nat
  nextReminderTime : Option Nat
  adminNotifiedDate : Option Nat
  subscriptionExpiry : Option Nat
  deactivationReason : Option String
  deactivatedAt : Option Nat
  date : Nat
deriving DecidableEq

/-- Outcome of an awaited SMS or email call. -/
inductive SmsOutcome
  | success
  | failure
  | thrown
deriving DecidableEq

/-- Notification sends attempted by one reminder tick for one patient. -/
inductive Action
  | reactivationSms
  | newUserSms (attempt : Nat)
  | activeSms (attempt : Nat)
  | thirdSms
  | adminAlert
deriving DecidableEq

/-- calculateNextReminderTime: 23 hours and 30 minutes after the last dose. -/
def calculateNextReminderTime (lastDoseTime : Nat) : Nat :=
  lastDoseTime + 23 * hourMs + 30 * minuteMs

/-- calculateSecondReminderTime: 24 hours and 30 minutes after the last dose. -/
def calculateSecondReminderTime (lastDoseTime : Nat) : Nat :=
  lastDoseTime + 24 * hourMs + 30 * minuteMs

/-- calculateThirdReminderTime: 24 hours after the second reminder time. -/
def calculateThirdReminderTime (secondReminderTime : Nat) : Nat :=
  secondReminderTime + 24 * hourMs

/-- updatePatientReminderData: the dose-event hook, a single
findByIdAndUpdate issued when a dose is logged. -/
def updatePatientReminderData (p : Patient) (doseTime : Nat) : Patient :=
  { p with
    lastDoseTime := some doseTime
    nextReminderTime := some (calculateNextReminderTime doseTime)
    reminderAttempts := 0
    lastReminderSent := none
    hasLoggedFirstDose := true
    smsReminderCycle := Cycle.active_user }

/-- handleReactivation: sends the smart reactivation SMS, then resets the
cycle.  The findByIdAndUpdate reset is issued regardless of the SMS
result (it is outside the smsResult.success check); only a thrown SMS
call aborts the try block before the reset. -/
def handleReactivation (p : Patient) (now : Nat) (sms : SmsOutcome) :
    Patient × List Action :=
  if sms = SmsOutcome.thrown then (p, [Action.reactivationSms])
  else
    ({ p with
        smsReminderCycle := Cycle.new_user
        hasLoggedFirstDose := false
        reminderAttempts := 0
        lastReminderSent := none
        nextReminderTime := none
        welcomeSmsSentAt := some now }, [Action.reactivationSms])

/-- sendAdminNotification: emails regular admins about an inactive user,
then marks the patient notified.  The update runs only after the email
await returns; a thrown email call is caught and skips the update. -/
def sendAdminNotification (p : Patient) (now : Nat)
    (adminEmailsNonempty : Bool) (emailOk : Bool) : Patient × List Action :=
  if adminEmailsNonempty then
    if emailOk then
      ({ p with
          adminNotifiedDate := some now
          smsReminderCycle := Cycle.admin_notified }, [Action.adminAlert])
    else (p, [Action.adminAlert])
  else (p, [])

/-- The Patient.find filter of tick step 1 (recently reactivated
patients): active, verified, previousActiveState false, a
lastActivationDate within the last two hours that is strictly after the
account-creation date. -/
abbrev reactivatedPatientsFilter (p : Patient) (now : Nat) : Prop :=
  p.active = true ∧ p.verified = true ∧ p.previousActiveState = some false ∧
  p.lastActivationDate ≠ none ∧
  now ≤ p.lastActivationDate.getD 0 + 2 * hourMs ∧
  p.date < p.lastActivationDate.getD 0

/-- The in-loop reactivation check: no welcome SMS sent yet, or the last
activation is after the last welcome SMS sent. -/
abbrev reactivationLoopGuard (p : Patient) : Prop :=
  p.welcomeSmsSentAt = none ∨
    (p.lastActivationDate ≠ none ∧
      p.welcomeSmsSentAt.getD 0 < p.lastActivationDate.getD 0)

/-- The Patient.find filter of tick step 2 (new users awaiting a first dose). -/
abbrev newUsersFilter (p : Patient) : Prop :=
  p.role = "patient" ∧ p.active = true ∧ p.verified = true ∧
  p.smsReminderCycle = Cycle.new_user ∧ p.welcomeSmsSent = true ∧
  p.welcomeSmsSentAt ≠ none ∧ p.hasLoggedFirstDose = false ∧
  p.isActive ≠ some false

/-- The Patient.find filter of tick step 3 (active users). -/
abbrev activeUsersFilter (p : Patient) : Prop :=
  p.role = "patient" ∧ p.active = true ∧ p.verified = true ∧
  p.smsReminderCycle = Cycle.active_user ∧ p.hasLoggedFirstDose = true ∧
  p.isActive ≠ some false

/-- The Patient.find filter of tick step 4 (inactive users needing the
admin alert): attempts exhausted and admin not yet notified. -/
abbrev inactiveUsersFilter (p : Patient) : Prop :=
  p.role = "patient" ∧ p.active = true ∧ p.verified = true ∧
  p.smsReminderCycle = Cycle.inactive_user ∧ p.reminderAttempts = 3 ∧
  p.adminNotifiedDate = none ∧ p.isActive ≠ some false

/-- Loop body of tick step 2 for one new user.  Guards read the document
fetched at scan time (p); writes accumulate.  doseSince t models the
Dose.findOne existence query for a dose with timestamp at least t. -/
def newUserBody (p : Patient) (now : Nat) (doseSince : Nat → Bool)
    (sms1 sms2 : SmsOutcome) : Patient × List Action :=
  if p.phone = none ∨ p.welcomeSmsSentAt = none then (p, [])
  else
    let welcomeSmsTime := p.welcomeSmsSentAt.getD 0
    let sixHoursLater := welcomeSmsTime + 6 * hourMs
    let twentyFourHoursLater := welcomeSmsTime + 24 * hourMs
    let st1 :=
      if sixHoursLater ≤ now ∧ p.reminderAttempts = 0 ∧
          doseSince welcomeSmsTime = false then
        if sms1 = SmsOutcome.success then
          { p with reminderAttempts := 1, lastReminderSent := some now }
        else p
      else p
    let acts1 : List Action :=
      if sixHoursLater ≤ now ∧ p.reminderAttempts = 0 ∧
          doseSince welcomeSmsTime = false then [Action.newUserSms 1] else []
    let st2 :=
      if twentyFourHoursLater ≤ now ∧ p.reminderAttempts = 1 ∧
          doseSince sixHoursLater = false then
        if sms2 = SmsOutcome.success then
          { st1 with
              reminderAttempts := 2
              lastReminderSent := some now
              smsReminderCycle := Cycle.inactive_user }
        else st1
      else st1
    let acts2 : List Action :=
      if twentyFourHoursLater ≤ now ∧ p.reminderAttempts = 1 ∧
          doseSince sixHoursLater = false then [Action.newUserSms 2] else []
    (st2, acts1 ++ acts2)

/-- Loop body of tick step 3 for one active user. -/
def activeUserBody (p : Patient) (now : Nat) (doseSince : Nat → Bool)
    (sms1 sms2 sms3 : SmsOutcome) : Patient × List Action :=
  if p.phone = none ∨ p.lastDoseTime = none then (p, [])
  else
    let lastDoseTime := p.lastDoseTime.getD 0
    let firstReminderTime := calculateNextReminderTime lastDoseTime
    let secondReminderTime := calculateSecondReminderTime lastDoseTime
    let thirdReminderTime := calculateThirdReminderTime secondReminderTime
    let st1 :=
      if firstReminderTime ≤ now ∧ p.reminderAttempts = 0 ∧
          doseSince firstReminderTime = false then
        if sms1 = SmsOutcome.success then
          { p with reminderAttempts := 1, lastReminderSent := some now }
        else p
      else p
    let acts1 : List Action :=
      if firstReminderTime ≤ now ∧ p.reminderAttempts = 0 ∧
          doseSince firstReminderTime = false then [Action.activeSms 1] else []
    let st2 :=
      if secondReminderTime ≤ now ∧ p.reminderAttempts = 1 ∧
          doseSince secondReminderTime = false then
        if sms2 = SmsOutcome.success then
          { st1 with reminderAttempts := 2, lastReminderSent := some now }
        else st1
      else st1
    let acts2 : List Action :=
      if secondReminderTime ≤ now ∧ p.reminderAttempts = 1 ∧
          doseSince secondReminderTime = false then [Action.activeSms 2] else []
    let st3 :=
      if thirdReminderTime ≤ now ∧ p.reminderAttempts = 2 ∧
          doseSince thirdReminderTime = false then
        if sms3 = SmsOutcome.success then
          { st2 with
              reminderAttempts := 3
              lastReminderSent := some now
              smsReminderCycle := Cycle.inactive_user }
        else st2
      else st2
    let acts3 : List Action :=
      if thirdReminderTime ≤ now ∧ p.reminderAttempts = 2 ∧
          doseSince thirdReminderTime = false then [Action.thirdSms] else []
    (st3, acts1 ++ acts2 ++ acts3)

/-- External inputs of one reminder tick for one patient: the dose
oracle and the outcomes of the notification calls at each call site. -/
structure TickEnv where
  doseSince : Nat → Bool
  reactivationSms : SmsOutcome
  newUserSms1 : SmsOutcome
  newUserSms2 : SmsOutcome
  activeSms1 : SmsOutcome
  activeSms2 : SmsOutcome
  activeSms3 : SmsOutcome
  adminEmailsNonempty : Bool
  adminEmailOk : Bool

/-- Tick step 1 applied to one patient. -/
def reactivationSection (p : Patient) (now : Nat) (env : TickEnv) :
    Patient × List Action :=
  if reactivatedPatientsFilter p now ∧ reactivationLoopGuard p then
    handleReactivation p now env.reactivationSms
  else (p, [])

/-- Tick step 2 applied to one patient. -/
def newUserSection (p : Patient) (now : Nat) (env : TickEnv) :
    Patient × List Action :=
  if newUsersFilter p then
    newUserBody p now env.doseSince env.newUserSms1 env.newUserSms2
  else (p, [])

/-- Tick step 3 applied to one patient. -/
def activeUserSection (p : Patient) (now : Nat) (env : TickEnv) :
    Patient × List Action :=
  if activeUsersFilter p then
    activeUserBody p now env.doseSince env.activeSms1 env.activeSms2
      env.activeSms3
  else (p, [])

/-- Tick step 4 applied to one patient. -/
def inactiveUserSection (p : Patient) (now : Nat) (env : TickEnv) :
    Patient × List Action :=
  if inactiveUsersFilter p then
    sendAdminNotification p now env.adminEmailsNonempty env.adminEmailOk
  else (p, [])

/-- One execution of the comprehensive reminder cron callback restricted
to a single patient: the four steps run in order, and each step issues a
fresh Patient.find, so it observes the writes of the previous steps. -/
def tickPatient (p : Patient) (now : Nat) (env : TickEnv) :
    Patient × List Action :=
  let r1 := reactivationSection p now env
  let r2 := newUserSection r1.1 now env
  let r3 := activeUserSection r2.1 now env
  let r4 := inactiveUserSection r3.1 now env
  (r4.1, r1.2 ++ r2.2 ++ r3.2 ++ r4.2)

/-- The scan across patients: each patient document is processed with
its own environment, independently of the others (every per-patient
error is caught inside the loop). -/
def scanPatients (ps : List (Patient × TickEnv)) (now : Nat) :
    List (Patient × List Action) :=
  ps.map fun q => tickPatient q.1 now q.2

/-- The Patient.find filter of the subscription job. -/
abbrev subscriptionFilter (p : Patient) : Prop :=
  p.active = true ∧ p.verified = true ∧ p.isActive ≠ some false ∧
  p.subscriptionExpiry ≠ none

/-- daysUntilExpiry: Math.ceil of (expiry - now) in days, as computed by
the subscription job (integer ceiling of an exact real quotient). -/
def daysUntilExpiry (expiry now : Nat) : Int :=
  -(((now : Int) - (expiry : Int)) / (dayMs : Int))

/-- Notification sends of the subscription job. -/
inductive SubAction
  | expiryWarning7
  | expiryUrgent1
  | expiredNotice
deriving DecidableEq

/-- The deactivation update of the subscription job, guarded by
patient.active. -/
def deactivateExpired (p : Patient) (now : Nat) : Patient :=
  if p.active then
    { p with
        active := false
        deactivatedAt := some now
        deactivationReason := some ("Subscription expired") }
  else p

/-- Loop body of the subscription job for one patient: the 7-day and
1-day warnings, and the expired branch (notice once at zero, then the
deactivation).  If the expired-notice email throws (emailOk = false at
day 0) the per-patient catch skips the deactivation that day. -/
def subscriptionBody (p : Patient) (now : Nat) (emailOk : Bool) :
    Patient × List SubAction :=
  if p.subscriptionExpiry = none then (p, [])
  else
    let expiry := p.subscriptionExpiry.getD 0
    let d := daysUntilExpiry expiry now
    if d = 7 then (p, [SubAction.expiryWarning7])
    else if d = 1 then (p, [SubAction.expiryUrgent1])
    else if d ≤ 0 then
      if d = 0 then
        if emailOk then (deactivateExpired p now, [SubAction.expiredNotice])
        else (p, [SubAction.expiredNotice])
      else (deactivateExpired p now, [])
    else (p, [])

/-- One execution of the daily subscription cron callback restricted to
a single patient. -/
def subscriptionTickPatient (p : Patient) (now : Nat) (emailOk : Bool) :
    Patient × List SubAction :=
  if subscriptionFilter p then subscriptionBody p now emailOk else (p, [])

/-- Timestamp of the most recent Basal dose, as found by
Dose.findOne sorted by timestamp descending. -/
def lastBasalTimestamp : List Dose → Option Nat
  | [] => none
  | d :: ds =>
    let rest := lastBasalTimestamp ds
    if d.type = DoseType.Basal then
      match rest with
      | none => some d.timestamp
      | some t => some (max d.timestamp t)
    else rest

/-- Result of the logDose controller: HTTP status, the dose rows after
the request, and the patient document after the reminder hook. -/
structure LogDoseResult where
  status : Nat
  doses : List Dose
  patient : Patient
deriving DecidableEq

/-- logDose (doseController): rejects with 400 when the new timestamp is
less than 20 hours after the most recent Basal dose; otherwise saves the
dose and then runs updatePatientReminderData with the dose timestamp. -/
def logDose (doses : List Dose) (p : Patient) (ty : DoseType) (ts : Nat) :
    LogDoseResult :=
  match lastBasalTimestamp doses with
  | some lastBasalTime =>
    if ts < lastBasalTime + 20 * hourMs then
      { status := 400, doses := doses, patient := p }
    else
      { status := 201, doses := doses ++ [{ type := ty, timestamp := ts }],
        patient := updatePatientReminderData p ts }
  | none =>
    { status := 201, doses := doses ++ [{ type := ty, timestamp := ts }],
      patient := updatePatientReminderData p ts }

/-- Base patient for concrete instances: a verified active patient with
a phone, in the new-user cycle, with no reactivation edge pending. -/
def basePatient : Patient :=
  { phone := some ("233200000000"), role := "patient", active := true,
    verified := true, isActive := none, previousActiveState := some true,
    lastActivationDate := none, welcomeSmsSent := true,
    welcomeSmsSentAt := some 0, hasLoggedFirstDose := false,
    smsReminderCycle := Cycle.new_user, reminderAttempts := 0,
    lastReminderSent := none, lastDoseTime := none, nextReminderTime := none,
    adminNotifiedDate := none, subscriptionExpiry := none,
    deactivationReason := none, deactivatedAt := none, date := 0 }

/-- Environment where every send succeeds, no dose exists after any
mark, and no admin emails are configured. -/
def envNoDose : TickEnv :=
  { doseSince := fun _ => false, reactivationSms := SmsOutcome.success,
    newUserSms1 := SmsOutcome.success, newUserSms2 := SmsOutcome.success,
    activeSms1 := SmsOutcome.success, activeSms2 := SmsOutcome.success,
    activeSms3 := SmsOutcome.success, adminEmailsNonempty := false,
    adminEmailOk := false }

/-- Environment where every send succeeds and admin emails exist. -/
def envAdminReady : TickEnv :=
  { envNoDose with adminEmailsNonempty := true, adminEmailOk := true }

def patientC5 : Patient := { basePatient with reminderAttempts := 1 }

def patientC6 : Patient :=
  { basePatient with
    phone := none, previousActiveState := some false,
    lastActivationDate := some 1000, date := 1000,
    welcomeSmsSent := false, welcomeSmsSentAt := none,
    smsReminderCycle := Cycle.admin_notified }

def patientC6w : Patient :=
  { basePatient with
    previousActiveState := some false,
    lastActivationDate := some (10 * hourMs),
    welcomeSmsSent := false, welcomeSmsSentAt := none }

def patientC7 : Patient :=
  { basePatient with
    previousActiveState := some false, lastActivationDate := some hourMs,
    welcomeSmsSent := false, welcomeSmsSentAt := none,
    hasLoggedFirstDose := true, smsReminderCycle := Cycle.active_user,
    lastDoseTime := some hourMs }

def envC7 : TickEnv :=
  { envNoDose with reactivationSms := SmsOutcome.failure }

def patientC8 : Patient :=
  { basePatient with subscriptionExpiry := some (7 * dayMs) }

def patientC9 : Patient :=
  { basePatient with
    phone := none, hasLoggedFirstDose := true,
    smsReminderCycle := Cycle.inactive_user, reminderAttempts := 3,
    lastReminderSent := some 0, lastDoseTime := some 0 }

def patientC9w : Patient := { basePatient with phone := none }

def patientC2 : Patient :=
  { basePatient with
    smsReminderCycle := Cycle.active_user, hasLoggedFirstDose := true,
    lastDoseTime := some 0 }

def patientC3 : Patient :=
  { basePatient with
    smsReminderCycle := Cycle.inactive_user, hasLoggedFirstDose := true,
    reminderAttempts := 3 }

def patientC3b : Patient :=
  { patientC3 with adminNotifiedDate := some 5,
                   smsReminderCycle := Cycle.admin_notified }


lemma reactivationSection_fst_adminNotifiedDate (p : Patient) (now : Nat)
    (env : TickEnv) :
    (reactivationSection p now env).1.adminNotifiedDate = p.adminNotifiedDate := by
  simp only [reactivationSection, handleReactivation]
  split_ifs <;> rfl

lemma newUserSection_fst_adminNotifiedDate (p : Patient) (now : Nat)
    (env : TickEnv) :
    (newUserSection p now env).1.adminNotifiedDate = p.adminNotifiedDate := by
  simp only [newUserSection, newUserBody]
  split_ifs <;> rfl

lemma activeUserSection_fst_adminNotifiedDate (p : Patient) (now : Nat)
    (env : TickEnv) :
    (activeUserSection p now env).1.adminNotifiedDate = p.adminNotifiedDate := by
  simp only [activeUserSection, activeUserBody]
  split_ifs <;> rfl

lemma adminAlert_not_mem_reactivationSection (p : Patient) (now : Nat)
    (env : TickEnv) :
    Action.adminAlert ∉ (reactivationSection p now env).2 := by
  simp only [reactivationSection, handleReactivation]
  split_ifs <;> simp

lemma adminAlert_not_mem_newUserSection (p : Patient) (now : Nat)
    (env : TickEnv) :
    Action.adminAlert ∉ (newUserSection p now env).2 := by
  simp only [newUserSection, newUserBody]
  split_ifs <;> simp

lemma adminAlert_not_mem_activeUserSection (p : Patient) (now : Nat)
    (env : TickEnv) :
    Action.adminAlert ∉ (activeUserSection p now env).2 := by
  simp only [activeUserSection, activeUserBody]
  split_ifs <;> simp


lemma newUserBody_reminderAttempts_le (p : Patient) (now : Nat)
    (o : Nat → Bool) (s1 s2 : SmsOutcome) :
    p.reminderAttempts ≤ (newUserBody p now o s1 s2).1.reminderAttempts := by
  simp only [newUserBody]
  split_ifs <;> simp_all

lemma activeUserBody_reminderAttempts_le (p : Patient) (now : Nat)
    (o : Nat → Bool) (s1 s2 s3 : SmsOutcome) :
    p.reminderAttempts ≤ (activeUserBody p now o s1 s2 s3).1.reminderAttempts := by
  simp only [activeUserBody]
  split_ifs <;> simp_all

lemma newUserSection_reminderAttempts_le (p : Patient) (now : Nat)
    (env : TickEnv) :
    p.reminderAttempts ≤ (newUserSection p now env).1.reminderAttempts := by
  simp only [newUserSection]
  split_ifs
  · exact newUserBody_reminderAttempts_le p now env.doseSince env.newUserSms1
      env.newUserSms2
  · exact Nat.le_refl _

lemma activeUserSection_reminderAttempts_le (p : Patient) (now : Nat)
    (env : TickEnv) :
    p.reminderAttempts ≤ (activeUserSection p now env).1.reminderAttempts := by
  simp only [activeUserSection]
  split_ifs
  · exact activeUserBody_reminderAttempts_le p now env.doseSince env.activeSms1
      env.activeSms2 env.activeSms3
  · exact Nat.le_refl _

lemma inactiveUserSection_fst_reminderAttempts (p : Patient) (now : Nat)
    (env : TickEnv) :
    (inactiveUserSection p now env).1.reminderAttempts = p.reminderAttempts := by
  simp only [inactiveUserSection, sendAdminNotification]
  split_ifs <;> rfl

lemma newUserSection_reset (r : Patient) (now : Nat) (env : TickEnv)
    (h1 : r.welcomeSmsSentAt = some now) (h2 : r.reminderAttempts = 0) :
    newUserSection r now env = (r, []) := by
  simp only [newUserSection]
  split_ifs with hf
  · simp only [newUserBody]
    rcases hph : r.phone with _ | ph
    · simp [hph]
    · rw [if_neg (by simp [hph, h1])]
      have hx : ¬ (now + 6 * hourMs ≤ now) := by
        simp only [hourMs, minuteMs]; omega
      simp [h1, h2, hx]
  · rfl

lemma activeUserSection_not_first_dose (r : Patient) (now : Nat)
    (env : TickEnv) (h : r.hasLoggedFirstDose = false) :
    activeUserSection r now env = (r, []) := by
  have hnf : ¬ activeUsersFilter r := by
    intro hf
    rw [hf.2.2.2.2.1] at h
    exact Bool.noConfusion h
  simp [activeUserSection, hnf]

lemma inactiveUserSection_new_user_cycle (r : Patient) (now : Nat)
    (env : TickEnv) (h : r.smsReminderCycle = Cycle.new_user) :
    inactiveUserSection r now env = (r, []) := by
  have hnf : ¬ inactiveUsersFilter r := by
    intro hf
    rw [hf.2.2.2.1] at h
    exact Cycle.noConfusion h
  simp [inactiveUserSection, hnf]


lemma daysUntilExpiry_eq_iff (e n : Nat) (d : Int) :
    daysUntilExpiry e n = d ↔
      ((d - 1) * (dayMs : Int) < (e : Int) - (n : Int) ∧
        (e : Int) - (n : Int) ≤ d * (dayMs : Int)) := by
  have hD : ((dayMs : Nat) : Int) = 86400000 := by
    norm_num [dayMs, hourMs, minuteMs]
  simp only [daysUntilExpiry, hD]
  omega

/-- C1: the dose-event hook, invoked from logDose with the dose
timestamp T, sets lastDoseTime = T, nextReminderTime = T plus 23h30m,
reminderAttempts = 0, lastReminderSent absent, hasLoggedFirstDose true
and smsReminderCycle active_user, in one update. -/
theorem c1_dose_hook_sets_reminder_baseline (p : Patient) (t : Nat) :
    (updatePatientReminderData p t).lastDoseTime = some t ∧
    (updatePatientReminderData p t).nextReminderTime =
      some (t + 23 * hourMs + 30 * minuteMs) ∧
    (updatePatientReminderData p t).reminderAttempts = 0 ∧
    (updatePatientReminderData p t).lastReminderSent = none ∧
    (updatePatientReminderData p t).hasLoggedFirstDose = true ∧
    (updatePatientReminderData p t).smsReminderCycle = Cycle.active_user := by
  simp [updatePatientReminderData, calculateNextReminderTime]

/-- C2: for a patient matched by the active-users scan with
reminderAttempts 0, a phone and a lastDoseTime, once now has reached
lastDoseTime plus 23h30m and no dose with timestamp at or after that
mark exists, the tick sends the first active reminder and, the SMS
succeeding, sets reminderAttempts to 1 and lastReminderSent to now;
while now is before that mark, no send occurs and the state is
unchanged. -/
theorem c2_first_active_reminder (p : Patient) (now ldt : Nat) (env : TickEnv)
    (hsel : activeUsersFilter p) (hatt : p.reminderAttempts = 0)
    (hph : p.phone ≠ none) (hldt : p.lastDoseTime = some ldt) :
    (calculateNextReminderTime ldt ≤ now →
      env.doseSince (calculateNextReminderTime ldt) = false →
      env.activeSms1 = SmsOutcome.success →
      activeUserSection p now env =
        ({ p with reminderAttempts := 1, lastReminderSent := some now },
         [Action.activeSms 1])) ∧
    (now < calculateNextReminderTime ldt →
      activeUserSection p now env = (p, [])) := by
  constructor
  · intro h1 h2 h3
    simp only [activeUserSection, if_pos hsel, activeUserBody]
    rw [if_neg (by simp [hph, hldt])]
    simp [hldt, hatt, h1, h2, h3]
  · intro h1
    have hn : ¬ (calculateNextReminderTime ldt ≤ now) := Nat.not_le.mpr h1
    simp only [activeUserSection, if_pos hsel, activeUserBody]
    rw [if_neg (by simp [hph, hldt])]
    simp [hldt, hatt, hn]

/-- C2 witness: a concrete active user dosed at time 0 receives the
first reminder at 24 hours and nothing at 23 hours. -/
theorem c2_witness :
    activeUserSection patientC2 (24 * hourMs) envNoDose =
      ({ patientC2 with reminderAttempts := 1,
                        lastReminderSent := some (24 * hourMs) },
       [Action.activeSms 1]) ∧
    activeUserSection patientC2 (23 * hourMs) envNoDose = (patientC2, []) := by
  constructor
  · exact (c2_first_active_reminder patientC2 (24 * hourMs) 0 envNoDose
      (by decide) rfl (by decide) rfl).1 (by decide) rfl rfl
  · exact (c2_first_active_reminder patientC2 (23 * hourMs) 0 envNoDose
      (by decide) rfl (by decide) rfl).2 (by decide)

/-- C3: the admin alert fires only for patients the step-4 filter
matches, hence only while adminNotifiedDate is absent; a successful
alert sets adminNotifiedDate and moves the cycle to admin_notified; and
for any patient whose adminNotifiedDate is already set, a full tick
emits no admin alert and preserves adminNotifiedDate, so the alert can
never repeat for that episode. -/
theorem c3_admin_alert_at_most_once (p q : Patient) (now d : Nat)
    (env : TickEnv) :
    (inactiveUsersFilter p → env.adminEmailsNonempty = true →
      env.adminEmailOk = true →
      inactiveUserSection p now env =
        ({ p with adminNotifiedDate := some now,
                  smsReminderCycle := Cycle.admin_notified },
         [Action.adminAlert])) ∧
    (q.adminNotifiedDate = some d →
      Action.adminAlert ∉ (tickPatient q now env).2 ∧
      (tickPatient q now env).1.adminNotifiedDate = some d) := by
  constructor
  · intro hsel h1 h2
    simp [inactiveUserSection, hsel, sendAdminNotification, h1, h2]
  · intro hq
    have h1 : (reactivationSection q now env).1.adminNotifiedDate = some d := by
      rw [reactivationSection_fst_adminNotifiedDate]; exact hq
    have h2 : (newUserSection (reactivationSection q now env).1 now
        env).1.adminNotifiedDate = some d := by
      rw [newUserSection_fst_adminNotifiedDate]; exact h1
    have h3 : (activeUserSection (newUserSection
        (reactivationSection q now env).1 now env).1 now
        env).1.adminNotifiedDate = some d := by
      rw [activeUserSection_fst_adminNotifiedDate]; exact h2
    have hnf : ¬ inactiveUsersFilter (activeUserSection (newUserSection
        (reactivationSection q now env).1 now env).1 now env).1 := by
      intro hf
      rw [hf.2.2.2.2.2.1] at h3
      exact Option.noConfusion h3
    have h4 : inactiveUserSection (activeUserSection (newUserSection
        (reactivationSection q now env).1 now env).1 now env).1 now env =
        ((activeUserSection (newUserSection (reactivationSection q now
          env).1 now env).1 now env).1, []) := by
      simp [inactiveUserSection, hnf]
    refine ⟨?_, ?_⟩
    · simp only [tickPatient, h4, List.append_nil, List.mem_append]
      push_neg
      exact ⟨⟨adminAlert_not_mem_reactivationSection q now env,
        adminAlert_not_mem_newUserSection _ now env⟩,
        adminAlert_not_mem_activeUserSection _ now env⟩
    · simp only [tickPatient, h4]
      exact h3

/-- C3 witness: a concrete exhausted inactive user gets the alert and
the notified marks; a concrete already-notified patient gets no alert
from a full tick. -/
theorem c3_witness :
    inactiveUserSection patientC3 77 envAdminReady =
      ({ patientC3 with adminNotifiedDate := some 77,
                        smsReminderCycle := Cycle.admin_notified },
       [Action.adminAlert]) ∧
    (Action.adminAlert ∉ (tickPatient patientC3b 77 envAdminReady).2 ∧
      (tickPatient patientC3b 77 envAdminReady).1.adminNotifiedDate = some 5) := by
  constructor
  · exact (c3_admin_alert_at_most_once patientC3 patientC3b 77 5
      envAdminReady).1 (by decide) rfl rfl
  · exact (c3_admin_alert_at_most_once patientC3 patientC3b 77 5
      envAdminReady).2 rfl

/-- C4: in one tick, at most one reminder send fires per patient
within the new-user branch and at most one within the active-user
branch, because every guard requires the exact reminderAttempts value
read at scan time. -/
theorem c4_at_most_one_send_per_branch (p : Patient) (now : Nat)
    (o : Nat → Bool) (s1 s2 t1 t2 t3 : SmsOutcome) :
    (newUserBody p now o s1 s2).2.length ≤ 1 ∧
    (activeUserBody p now o t1 t2 t3).2.length ≤ 1 := by
  constructor
  · simp only [newUserBody]
    split_ifs <;> simp_all
  · simp only [activeUserBody]
    split_ifs <;> simp_all

/-- C5 (amended): in any tick in which the reactivation path does not
fire, reminderAttempts never decreases; it is reset to 0 exactly by the
dose hook, which moves the cycle to active_user, and by reactivation
handling, which moves the cycle to new_user.  The original claim that
every cycle-changing transition leaves reminderAttempts at 0 fails: the
transitions into inactive_user keep the advanced attempts value. -/
theorem c5_attempts_monotone_and_resets (p : Patient) (now t : Nat)
    (env : TickEnv) :
    (¬ (reactivatedPatientsFilter p now ∧ reactivationLoopGuard p) →
      p.reminderAttempts ≤ (tickPatient p now env).1.reminderAttempts) ∧
    ((updatePatientReminderData p t).reminderAttempts = 0 ∧
      (updatePatientReminderData p t).smsReminderCycle = Cycle.active_user) ∧
    (env.reactivationSms ≠ SmsOutcome.thrown →
      (handleReactivation p now env.reactivationSms).1.reminderAttempts = 0 ∧
      (handleReactivation p now env.reactivationSms).1.smsReminderCycle =
        Cycle.new_user) := by
  refine ⟨?_, ⟨rfl, rfl⟩, ?_⟩
  · intro h
    have e1 : reactivationSection p now env = (p, []) := by
      simp [reactivationSection, h]
    simp only [tickPatient, e1]
    rw [inactiveUserSection_fst_reminderAttempts]
    exact Nat.le_trans (newUserSection_reminderAttempts_le p now env)
      (activeUserSection_reminderAttempts_le _ now env)
  · intro h
    simp [handleReactivation, h]

/-- C5 counterexample: the 24-hour new-user transition changes the
cycle (new_user to inactive_user) yet leaves reminderAttempts at 2, so
it is not true that every cycle-changing transition resets
reminderAttempts to 0. -/
theorem c5_counterexample :
    (tickPatient patientC5 (24 * hourMs) envNoDose).1.smsReminderCycle ≠
      patientC5.smsReminderCycle ∧
    (tickPatient patientC5 (24 * hourMs) envNoDose).1.reminderAttempts ≠ 0 := by
  decide

/-- C5 witness: concrete instances of the monotone part and of both
resets. -/
theorem c5_witness :
    (basePatient.reminderAttempts ≤
      (tickPatient basePatient 50 envNoDose).1.reminderAttempts) ∧
    (updatePatientReminderData basePatient 9).reminderAttempts = 0 ∧
    (handleReactivation basePatient 50
      envNoDose.reactivationSms).1.reminderAttempts = 0 := by
  have h := c5_attempts_monotone_and_resets basePatient 50 9 envNoDose
  exact ⟨h.1 (by decide), h.2.1.1, (h.2.2 (by decide)).1⟩

/-- C6 (amended): a tick handles reactivation exactly when active,
verified, previousActiveState is false, and lastActivationDate is
present, within the last 2 hours and strictly after the
account-creation date, with the welcome SMS never sent or older than
the activation; handling it, provided the SMS call does not throw,
resets the patient to smsReminderCycle new_user, hasLoggedFirstDose
false, reminderAttempts 0, lastReminderSent absent, nextReminderTime
absent and welcomeSmsSentAt now, and the rest of the tick leaves that
reset state untouched.  The original claim omitted the
lastActivationDate-after-creation-date condition. -/
theorem c6_reactivation_guard_and_reset (p : Patient) (now : Nat)
    (env : TickEnv) :
    (reactivatedPatientsFilter p now ∧ reactivationLoopGuard p →
      env.reactivationSms ≠ SmsOutcome.thrown →
      tickPatient p now env =
        ({ p with
            smsReminderCycle := Cycle.new_user
            hasLoggedFirstDose := false
            reminderAttempts := 0
            lastReminderSent := none
            nextReminderTime := none
            welcomeSmsSentAt := some now }, [Action.reactivationSms])) ∧
    (¬ (reactivatedPatientsFilter p now ∧ reactivationLoopGuard p) →
      reactivationSection p now env = (p, [])) ∧
    (reactivatedPatientsFilter p now ↔
      (p.active = true ∧ p.verified = true ∧
        p.previousActiveState = some false ∧
        ∃ la, p.lastActivationDate = some la ∧ now ≤ la + 2 * hourMs ∧
          p.date < la)) := by
  refine ⟨?_, ?_, ?_⟩
  · intro hc hs
    have e1 : reactivationSection p now env =
        ({ p with
            smsReminderCycle := Cycle.new_user
            hasLoggedFirstDose := false
            reminderAttempts := 0
            lastReminderSent := none
            nextReminderTime := none
            welcomeSmsSentAt := some now }, [Action.reactivationSms]) := by
      simp [reactivationSection, hc, handleReactivation, hs]
    simp only [tickPatient, e1]
    rw [newUserSection_reset _ _ _ rfl rfl,
      activeUserSection_not_first_dose _ _ _ rfl,
      inactiveUserSection_new_user_cycle _ _ _ rfl]
    simp
  · intro h
    simp [reactivationSection, h]
  · cases hla : p.lastActivationDate with
    | none => simp [reactivatedPatientsFilter, hla]
    | some la => simp [reactivatedPatientsFilter, hla]

/-- C6 counterexample: a patient satisfying every condition the claim
lists, but whose lastActivationDate does not exceed the
account-creation date, is not handled: the tick is a no-op. -/
theorem c6_counterexample :
    (patientC6.active = true ∧ patientC6.verified = true ∧
      patientC6.previousActiveState = some false ∧
      patientC6.lastActivationDate = some 1000 ∧
      (2000 : Nat) ≤ 1000 + 2 * hourMs ∧
      patientC6.welcomeSmsSentAt = none) ∧
    tickPatient patientC6 2000 envNoDose = (patientC6, []) := by
  decide

/-- C6 witness: a concrete recently reactivated patient is reset to
the new-user baseline by the tick. -/
theorem c6_witness :
    tickPatient patientC6w (10 * hourMs + 10 * minuteMs) envNoDose =
      ({ patientC6w with
          smsReminderCycle := Cycle.new_user
          hasLoggedFirstDose := false
          reminderAttempts := 0
          lastReminderSent := none
          nextReminderTime := none
          welcomeSmsSentAt := some (10 * hourMs + 10 * minuteMs) },
       [Action.reactivationSms]) := by
  exact (c6_reactivation_guard_and_reset patientC6w
    (10 * hourMs + 10 * minuteMs) envNoDose).1 (by decide) (by decide)

/-- C7 (amended): in the new-user and active-user branches, any
non-success send outcome leaves the patient state unchanged; the admin
path leaves state unchanged when the email call throws; the
reactivation path leaves state unchanged only when the SMS call throws;
and the scan processes every patient independently, so one failure
cannot abort the others.  The original claim fails on the reactivation
path, where an unsuccessful (non-throwing) send still resets state. -/
theorem c7_failure_leaves_state (p : Patient) (now : Nat) (o : Nat → Bool)
    (s1 s2 s3 : SmsOutcome) (ne ok : Bool) (ps : List (Patient × TickEnv))
    (i : Nat) :
    (s1 ≠ SmsOutcome.success → s2 ≠ SmsOutcome.success →
      (newUserBody p now o s1 s2).1 = p) ∧
    (s1 ≠ SmsOutcome.success → s2 ≠ SmsOutcome.success →
      s3 ≠ SmsOutcome.success → (activeUserBody p now o s1 s2 s3).1 = p) ∧
    (ok = false → (sendAdminNotification p now ne ok).1 = p) ∧
    (handleReactivation p now SmsOutcome.thrown).1 = p ∧
    (scanPatients ps now)[i]? =
      (ps[i]?).map (fun q => tickPatient q.1 now q.2) := by
  refine ⟨?_, ?_, ?_, rfl, ?_⟩
  · intro h1 h2
    simp only [newUserBody]
    split_ifs <;> simp_all
  · intro h1 h2 h3
    simp only [activeUserBody]
    split_ifs <;> simp_all
  · intro h
    simp only [sendAdminNotification, h]
    split_ifs <;> simp_all
  · simp [scanPatients, List.getElem?_map]

/-- C7 counterexample: a reactivation SMS that resolves with
success false still triggers the cycle reset, so a failed send does not
leave the patient state unchanged. -/
theorem c7_counterexample :
    envC7.reactivationSms = SmsOutcome.failure ∧
    (tickPatient patientC7 (hourMs + 10 * minuteMs) envC7).1 ≠ patientC7 := by
  decide

/-- C7 witness: concrete failed sends leave a concrete patient
unchanged in the reminder branches and the admin path, and the scan of
a singleton list processes its patient. -/
theorem c7_witness :
    (newUserBody basePatient 99 (fun _ => false) SmsOutcome.failure
      SmsOutcome.failure).1 = basePatient ∧
    (activeUserBody basePatient 99 (fun _ => false) SmsOutcome.failure
      SmsOutcome.failure SmsOutcome.failure).1 = basePatient ∧
    (sendAdminNotification basePatient 99 true false).1 = basePatient ∧
    (scanPatients [(basePatient, envNoDose)] 99)[0]? =
      some (tickPatient basePatient 99 envNoDose) := by
  have h := c7_failure_leaves_state basePatient 99 (fun _ => false)
    SmsOutcome.failure SmsOutcome.failure SmsOutcome.failure true false
    [(basePatient, envNoDose)] 0
  refine ⟨h.1 (by decide) (by decide),
    h.2.1 (by decide) (by decide) (by decide), h.2.2.1 rfl, ?_⟩
  rw [h.2.2.2.2]
  rfl

/-- C8: the subscription tick computes daysUntilExpiry as the
day-ceiling of expiry minus now, sends the 7-day warning exactly at 7,
the urgent warning exactly at 1 and the expired notice exactly at 0,
and whenever daysUntilExpiry is at most 0 deactivates the still-active
patient, setting deactivatedAt and the reason Subscription expired. -/
theorem c8_subscription_thresholds (p : Patient) (now e : Nat)
    (emailOk : Bool) (hsel : subscriptionFilter p)
    (he : p.subscriptionExpiry = some e) (hok : emailOk = true) :
    (∀ d : Int, daysUntilExpiry e now = d ↔
      ((d - 1) * (dayMs : Int) < (e : Int) - (now : Int) ∧
        (e : Int) - (now : Int) ≤ d * (dayMs : Int))) ∧
    ((subscriptionTickPatient p now emailOk).2 =
      if daysUntilExpiry e now = 7 then [SubAction.expiryWarning7]
      else if daysUntilExpiry e now = 1 then [SubAction.expiryUrgent1]
      else if daysUntilExpiry e now = 0 then [SubAction.expiredNotice]
      else []) ∧
    (daysUntilExpiry e now ≤ 0 →
      (subscriptionTickPatient p now emailOk).1 =
        { p with active := false, deactivatedAt := some now,
                 deactivationReason := some ("Subscription expired") }) ∧
    (0 < daysUntilExpiry e now →
      (subscriptionTickPatient p now emailOk).1 = p) := by
  refine ⟨fun d => daysUntilExpiry_eq_iff e now d, ?_, ?_, ?_⟩
  · simp only [subscriptionTickPatient, if_pos hsel, subscriptionBody, he, hok]
    split_ifs <;> simp_all [deactivateExpired]
  · intro h
    simp only [subscriptionTickPatient, if_pos hsel, subscriptionBody, he,
      hok, Option.getD_some]
    split_ifs <;> simp_all [deactivateExpired, hsel.1]
  · intro h
    simp only [subscriptionTickPatient, if_pos hsel, subscriptionBody, he,
      hok, Option.getD_some]
    split_ifs <;> first | rfl | omega

/-- C8 witness: a concrete patient expiring in exactly 7 days gets
exactly the 7-day warning. -/
theorem c8_witness :
    (subscriptionTickPatient patientC8 0 true).2 = [SubAction.expiryWarning7] := by
  have h := (c8_subscription_thresholds patientC8 0 (7 * dayMs) true
    (by decide) rfl rfl).2.1
  rw [h]
  decide

/-- C9 (amended): a patient without a phone is skipped, with no send
and no state change, by the new-user and active-user reminder branches;
but the admin-notification path never consults the phone and still
advances state.  The original claim that every processing path leaves a
phoneless patient unchanged is false. -/
theorem c9_no_phone_skips_reminders (p : Patient) (now : Nat)
    (o : Nat → Bool) (s1 s2 s3 t1 t2 : SmsOutcome) (hph : p.phone = none) :
    newUserBody p now o t1 t2 = (p, []) ∧
    activeUserBody p now o s1 s2 s3 = (p, []) ∧
    sendAdminNotification p now true true =
      ({ p with adminNotifiedDate := some now,
                smsReminderCycle := Cycle.admin_notified },
       [Action.adminAlert]) := by
  refine ⟨?_, ?_, rfl⟩
  · simp [newUserBody, hph]
  · simp [activeUserBody, hph]

/-- C9 counterexample: a phoneless inactive-user patient with three
attempts and no admin notification yet has its state changed by the
tick, because the admin-notification path fires regardless of the
phone. -/
theorem c9_counterexample :
    patientC9.phone = none ∧
    (tickPatient patientC9 1000 envAdminReady).1 ≠ patientC9 := by
  decide

/-- C9 witness: the two reminder branches skip a concrete phoneless
patient. -/
theorem c9_witness :
    newUserBody patientC9w 7 (fun _ => false) SmsOutcome.success
      SmsOutcome.success = (patientC9w, []) ∧
    activeUserBody patientC9w 7 (fun _ => false) SmsOutcome.success
      SmsOutcome.success SmsOutcome.success = (patientC9w, []) := by
  have h := c9_no_phone_skips_reminders patientC9w 7 (fun _ => false)
    SmsOutcome.success SmsOutcome.success SmsOutcome.success
    SmsOutcome.success SmsOutcome.success rfl
  exact ⟨h.1, h.2.1⟩

/-- C10: logDose rejects with status 400, creating no dose record and
leaving the patient unchanged, whenever the most recent Basal dose is
less than 20 hours before the new timestamp; otherwise the dose is
saved and the reminder hook runs with the dose timestamp. -/
theorem c10_basal_restriction (doses : List Dose) (p : Patient)
    (ty : DoseType) (ts : Nat) :
    ((∃ tb, lastBasalTimestamp doses = some tb ∧ ts < tb + 20 * hourMs) →
      logDose doses p ty ts = { status := 400, doses := doses, patient := p }) ∧
    ((∀ tb, lastBasalTimestamp doses = some tb → tb + 20 * hourMs ≤ ts) →
      logDose doses p ty ts =
        { status := 201, doses := doses ++ [{ type := ty, timestamp := ts }],
          patient := updatePatientReminderData p ts }) := by
  constructor
  · rintro ⟨tb, htb, hlt⟩
    simp [logDose, htb, hlt]
  · intro h
    cases htb : lastBasalTimestamp doses with
    | none => simp [logDose, htb]
    | some tb =>
      have hle := h tb htb
      simp [logDose, htb, Nat.not_lt.mpr hle]

/-- C10 witness: with one Basal dose at time 0, a dose at 10 hours is
rejected and a dose at exactly 20 hours is accepted and saved. -/
theorem c10_witness :
    logDose [{ type := DoseType.Basal, timestamp := 0 }] basePatient
      DoseType.Bolus (10 * hourMs) =
      { status := 400, doses := [{ type := DoseType.Basal, timestamp := 0 }],
        patient := basePatient } ∧
    logDose [{ type := DoseType.Basal, timestamp := 0 }] basePatient
      DoseType.Basal (20 * hourMs) =
      { status := 201,
        doses := [{ type := DoseType.Basal, timestamp := 0 },
                  { type := DoseType.Basal, timestamp := 20 * hourMs }],
        patient := updatePatientReminderData basePatient (20 * hourMs) } := by
  constructor
  · exact (c10_basal_restriction [{ type := DoseType.Basal, timestamp := 0 }]
      basePatient DoseType.Bolus (10 * hourMs)).1 ⟨0, rfl, by decide⟩
  · refine (c10_basal_restriction [{ type := DoseType.Basal, timestamp := 0 }]
      basePatient DoseType.Basal (20 * hourMs)).2 ?_
    intro tb htb
    simp [lastBasalTimestamp] at htb
    omega

end InsulinBackend
